import Mathlib

/-!
# Sahne64 user-space system-call interface

A shallow embedding of `sahne.h` (the constant tables of the interface) and of
the two demonstration programs `main.c` and `main.cpp`, together with the
properties of the interface specification that can be settled on them.
-/

namespace Sahne

/-! ## Basic types (`sahne.h`, lines 8-11) -/

/-- `typedef uint64_t sahne_handle_t;` -/
abbrev sahne_handle_t := Nat

/-- `typedef uint64_t sahne_task_id_t;` -/
abbrev sahne_task_id_t := Nat

/-- `typedef int32_t sahne_error_t;` -/
abbrev sahne_error_t := Int

/-! ## Success / error codes (`sahne.h`, lines 13-33) -/

def SAHNE_SUCCESS : sahne_error_t := 0

def SAHNE_ERROR_OUT_OF_MEMORY : sahne_error_t := 1
def SAHNE_ERROR_INVALID_ADDRESS : sahne_error_t := 2
def SAHNE_ERROR_INVALID_PARAMETER : sahne_error_t := 3
def SAHNE_ERROR_RESOURCE_NOT_FOUND : sahne_error_t := 4
def SAHNE_ERROR_PERMISSION_DENIED : sahne_error_t := 5
def SAHNE_ERROR_RESOURCE_BUSY : sahne_error_t := 6
def SAHNE_ERROR_INTERRUPTED : sahne_error_t := 7
def SAHNE_ERROR_NO_MESSAGE : sahne_error_t := 8
def SAHNE_ERROR_INVALID_OPERATION : sahne_error_t := 9
def SAHNE_ERROR_NOT_SUPPORTED : sahne_error_t := 10
def SAHNE_ERROR_UNKNOWN_SYSCALL : sahne_error_t := 11
def SAHNE_ERROR_TASK_CREATION_FAILED : sahne_error_t := 12
def SAHNE_ERROR_INVALID_HANDLE : sahne_error_t := 13
def SAHNE_ERROR_HANDLE_LIMIT_EXCEEDED : sahne_error_t := 14
def SAHNE_ERROR_NAMING_ERROR : sahne_error_t := 15
def SAHNE_ERROR_COMMUNICATION_ERROR : sahne_error_t := 16

/-- The definitions of the success / error section of `sahne.h`, in the order
of the header, each with the name the header gives it. The section defines
nothing else. -/
def sahne_defined_codes : List (String × sahne_error_t) :=
  [ ("SAHNE_SUCCESS", SAHNE_SUCCESS),
    ("SAHNE_ERROR_OUT_OF_MEMORY", SAHNE_ERROR_OUT_OF_MEMORY),
    ("SAHNE_ERROR_INVALID_ADDRESS", SAHNE_ERROR_INVALID_ADDRESS),
    ("SAHNE_ERROR_INVALID_PARAMETER", SAHNE_ERROR_INVALID_PARAMETER),
    ("SAHNE_ERROR_RESOURCE_NOT_FOUND", SAHNE_ERROR_RESOURCE_NOT_FOUND),
    ("SAHNE_ERROR_PERMISSION_DENIED", SAHNE_ERROR_PERMISSION_DENIED),
    ("SAHNE_ERROR_RESOURCE_BUSY", SAHNE_ERROR_RESOURCE_BUSY),
    ("SAHNE_ERROR_INTERRUPTED", SAHNE_ERROR_INTERRUPTED),
    ("SAHNE_ERROR_NO_MESSAGE", SAHNE_ERROR_NO_MESSAGE),
    ("SAHNE_ERROR_INVALID_OPERATION", SAHNE_ERROR_INVALID_OPERATION),
    ("SAHNE_ERROR_NOT_SUPPORTED", SAHNE_ERROR_NOT_SUPPORTED),
    ("SAHNE_ERROR_UNKNOWN_SYSCALL", SAHNE_ERROR_UNKNOWN_SYSCALL),
    ("SAHNE_ERROR_TASK_CREATION_FAILED", SAHNE_ERROR_TASK_CREATION_FAILED),
    ("SAHNE_ERROR_INVALID_HANDLE", SAHNE_ERROR_INVALID_HANDLE),
    ("SAHNE_ERROR_HANDLE_LIMIT_EXCEEDED", SAHNE_ERROR_HANDLE_LIMIT_EXCEEDED),
    ("SAHNE_ERROR_NAMING_ERROR", SAHNE_ERROR_NAMING_ERROR),
    ("SAHNE_ERROR_COMMUNICATION_ERROR", SAHNE_ERROR_COMMUNICATION_ERROR) ]

/-- The `SAHNE_ERROR_*` codes: the definitions of the section whose name
starts with `SAHNE_ERROR_`. -/
def sahne_error_codes : List (String × sahne_error_t) :=
  sahne_defined_codes.filter (fun e => "SAHNE_ERROR_".data.isPrefixOf e.1.data)

/-- The error kinds of the specification's data model, in the order in which
the specification lists them. -/
inductive ErrorKind
  | outOfMemory
  | invalidAddress
  | invalidParameter
  | resourceNotFound
  | permissionDenied
  | resourceBusy
  | interrupted
  | noMessage
  | invalidOperation
  | notSupported
  | unknownSyscall
  | taskCreationFailed
  | invalidHandle
  | handleLimitExceeded
  | namingError
  | communicationError
  deriving DecidableEq, Repr, Fintype

/-- The specification's list of kinds, written out in its order. -/
def ErrorKind.listed : List ErrorKind :=
  [ .outOfMemory, .invalidAddress, .invalidParameter, .resourceNotFound,
    .permissionDenied, .resourceBusy, .interrupted, .noMessage,
    .invalidOperation, .notSupported, .unknownSyscall, .taskCreationFailed,
    .invalidHandle, .handleLimitExceeded, .namingError, .communicationError ]

/-- The header constant that stands for a kind of the specification. -/
def ErrorKind.constName : ErrorKind → String
  | .outOfMemory => "SAHNE_ERROR_OUT_OF_MEMORY"
  | .invalidAddress => "SAHNE_ERROR_INVALID_ADDRESS"
  | .invalidParameter => "SAHNE_ERROR_INVALID_PARAMETER"
  | .resourceNotFound => "SAHNE_ERROR_RESOURCE_NOT_FOUND"
  | .permissionDenied => "SAHNE_ERROR_PERMISSION_DENIED"
  | .resourceBusy => "SAHNE_ERROR_RESOURCE_BUSY"
  | .interrupted => "SAHNE_ERROR_INTERRUPTED"
  | .noMessage => "SAHNE_ERROR_NO_MESSAGE"
  | .invalidOperation => "SAHNE_ERROR_INVALID_OPERATION"
  | .notSupported => "SAHNE_ERROR_NOT_SUPPORTED"
  | .unknownSyscall => "SAHNE_ERROR_UNKNOWN_SYSCALL"
  | .taskCreationFailed => "SAHNE_ERROR_TASK_CREATION_FAILED"
  | .invalidHandle => "SAHNE_ERROR_INVALID_HANDLE"
  | .handleLimitExceeded => "SAHNE_ERROR_HANDLE_LIMIT_EXCEEDED"
  | .namingError => "SAHNE_ERROR_NAMING_ERROR"
  | .communicationError => "SAHNE_ERROR_COMMUNICATION_ERROR"

/-- The code the header assigns to a kind: the value found under the kind's
constant in `sahne_error_codes`. -/
def ErrorKind.code (k : ErrorKind) : Option sahne_error_t :=
  (sahne_error_codes.find? (fun e => e.1 == k.constName)).map Prod.snd

/-- The kinds whose code is the magnitude `m`. -/
def kindsOfMagnitude (m : Int) : List ErrorKind :=
  ErrorKind.listed.filter (fun k => k.code == some m)

/-! ## System call numbers (`sahne.h`, lines 35-59) -/

def SAHNE_SYSCALL_MEMORY_ALLOCATE : Nat := 1
def SAHNE_SYSCALL_MEMORY_RELEASE : Nat := 2
def SAHNE_SYSCALL_TASK_SPAWN : Nat := 3
def SAHNE_SYSCALL_TASK_EXIT : Nat := 4
def SAHNE_SYSCALL_RESOURCE_ACQUIRE : Nat := 5
def SAHNE_SYSCALL_RESOURCE_READ : Nat := 6
def SAHNE_SYSCALL_RESOURCE_WRITE : Nat := 7
def SAHNE_SYSCALL_RESOURCE_RELEASE : Nat := 8
def SAHNE_SYSCALL_GET_TASK_ID : Nat := 9
def SAHNE_SYSCALL_TASK_SLEEP : Nat := 10
def SAHNE_SYSCALL_LOCK_CREATE : Nat := 11
def SAHNE_SYSCALL_LOCK_ACQUIRE : Nat := 12
def SAHNE_SYSCALL_LOCK_RELEASE : Nat := 13
def SAHNE_SYSCALL_THREAD_CREATE : Nat := 14
def SAHNE_SYSCALL_THREAD_EXIT : Nat := 15
def SAHNE_SYSCALL_GET_SYSTEM_TIME : Nat := 16
def SAHNE_SYSCALL_SHARED_MEM_CREATE : Nat := 17
def SAHNE_SYSCALL_SHARED_MEM_MAP : Nat := 18
def SAHNE_SYSCALL_SHARED_MEM_UNMAP : Nat := 19
def SAHNE_SYSCALL_MESSAGE_SEND : Nat := 20
def SAHNE_SYSCALL_MESSAGE_RECEIVE : Nat := 21
def SAHNE_SYSCALL_GET_KERNEL_INFO : Nat := 100
def SAHNE_SYSCALL_TASK_YIELD : Nat := 101
def SAHNE_SYSCALL_RESOURCE_CONTROL : Nat := 102

/-- The `SAHNE_SYSCALL_*` definitions of `sahne.h`, in the order of the
header, each with the name the header gives it. -/
def sahne_syscall_numbers : List (String × Nat) :=
  [ ("SAHNE_SYSCALL_MEMORY_ALLOCATE", SAHNE_SYSCALL_MEMORY_ALLOCATE),
    ("SAHNE_SYSCALL_MEMORY_RELEASE", SAHNE_SYSCALL_MEMORY_RELEASE),
    ("SAHNE_SYSCALL_TASK_SPAWN", SAHNE_SYSCALL_TASK_SPAWN),
    ("SAHNE_SYSCALL_TASK_EXIT", SAHNE_SYSCALL_TASK_EXIT),
    ("SAHNE_SYSCALL_RESOURCE_ACQUIRE", SAHNE_SYSCALL_RESOURCE_ACQUIRE),
    ("SAHNE_SYSCALL_RESOURCE_READ", SAHNE_SYSCALL_RESOURCE_READ),
    ("SAHNE_SYSCALL_RESOURCE_WRITE", SAHNE_SYSCALL_RESOURCE_WRITE),
    ("SAHNE_SYSCALL_RESOURCE_RELEASE", SAHNE_SYSCALL_RESOURCE_RELEASE),
    ("SAHNE_SYSCALL_GET_TASK_ID", SAHNE_SYSCALL_GET_TASK_ID),
    ("SAHNE_SYSCALL_TASK_SLEEP", SAHNE_SYSCALL_TASK_SLEEP),
    ("SAHNE_SYSCALL_LOCK_CREATE", SAHNE_SYSCALL_LOCK_CREATE),
    ("SAHNE_SYSCALL_LOCK_ACQUIRE", SAHNE_SYSCALL_LOCK_ACQUIRE),
    ("SAHNE_SYSCALL_LOCK_RELEASE", SAHNE_SYSCALL_LOCK_RELEASE),
    ("SAHNE_SYSCALL_THREAD_CREATE", SAHNE_SYSCALL_THREAD_CREATE),
    ("SAHNE_SYSCALL_THREAD_EXIT", SAHNE_SYSCALL_THREAD_EXIT),
    ("SAHNE_SYSCALL_GET_SYSTEM_TIME", SAHNE_SYSCALL_GET_SYSTEM_TIME),
    ("SAHNE_SYSCALL_SHARED_MEM_CREATE", SAHNE_SYSCALL_SHARED_MEM_CREATE),
    ("SAHNE_SYSCALL_SHARED_MEM_MAP", SAHNE_SYSCALL_SHARED_MEM_MAP),
    ("SAHNE_SYSCALL_SHARED_MEM_UNMAP", SAHNE_SYSCALL_SHARED_MEM_UNMAP),
    ("SAHNE_SYSCALL_MESSAGE_SEND", SAHNE_SYSCALL_MESSAGE_SEND),
    ("SAHNE_SYSCALL_MESSAGE_RECEIVE", SAHNE_SYSCALL_MESSAGE_RECEIVE),
    ("SAHNE_SYSCALL_GET_KERNEL_INFO", SAHNE_SYSCALL_GET_KERNEL_INFO),
    ("SAHNE_SYSCALL_TASK_YIELD", SAHNE_SYSCALL_TASK_YIELD),
    ("SAHNE_SYSCALL_RESOURCE_CONTROL", SAHNE_SYSCALL_RESOURCE_CONTROL) ]

/-- The operations the specification lists at the kernel boundary, in the
order in which it lists them. -/
inductive BoundaryOp
  | memoryAllocate | memoryRelease
  | taskSpawn | taskExit | taskGetId | taskSleep | taskYield
  | resourceAcquire | resourceRead | resourceWrite | resourceRelease
  | resourceControl
  | lockCreate | lockAcquire | lockRelease
  | threadCreate | threadExit
  | sharedMemCreate | sharedMemMap | sharedMemUnmap
  | messageSend | messageReceive
  | getKernelInfo
  | getTime
  deriving DecidableEq, Repr, Fintype

/-- The specification's list of boundary operations, written out. -/
def BoundaryOp.listed : List BoundaryOp :=
  [ .memoryAllocate, .memoryRelease,
    .taskSpawn, .taskExit, .taskGetId, .taskSleep, .taskYield,
    .resourceAcquire, .resourceRead, .resourceWrite, .resourceRelease,
    .resourceControl,
    .lockCreate, .lockAcquire, .lockRelease,
    .threadCreate, .threadExit,
    .sharedMemCreate, .sharedMemMap, .sharedMemUnmap,
    .messageSend, .messageReceive,
    .getKernelInfo,
    .getTime ]

/-- The header constant that carries a boundary operation. -/
def BoundaryOp.constName : BoundaryOp → String
  | .memoryAllocate => "SAHNE_SYSCALL_MEMORY_ALLOCATE"
  | .memoryRelease => "SAHNE_SYSCALL_MEMORY_RELEASE"
  | .taskSpawn => "SAHNE_SYSCALL_TASK_SPAWN"
  | .taskExit => "SAHNE_SYSCALL_TASK_EXIT"
  | .taskGetId => "SAHNE_SYSCALL_GET_TASK_ID"
  | .taskSleep => "SAHNE_SYSCALL_TASK_SLEEP"
  | .taskYield => "SAHNE_SYSCALL_TASK_YIELD"
  | .resourceAcquire => "SAHNE_SYSCALL_RESOURCE_ACQUIRE"
  | .resourceRead => "SAHNE_SYSCALL_RESOURCE_READ"
  | .resourceWrite => "SAHNE_SYSCALL_RESOURCE_WRITE"
  | .resourceRelease => "SAHNE_SYSCALL_RESOURCE_RELEASE"
  | .resourceControl => "SAHNE_SYSCALL_RESOURCE_CONTROL"
  | .lockCreate => "SAHNE_SYSCALL_LOCK_CREATE"
  | .lockAcquire => "SAHNE_SYSCALL_LOCK_ACQUIRE"
  | .lockRelease => "SAHNE_SYSCALL_LOCK_RELEASE"
  | .threadCreate => "SAHNE_SYSCALL_THREAD_CREATE"
  | .threadExit => "SAHNE_SYSCALL_THREAD_EXIT"
  | .sharedMemCreate => "SAHNE_SYSCALL_SHARED_MEM_CREATE"
  | .sharedMemMap => "SAHNE_SYSCALL_SHARED_MEM_MAP"
  | .sharedMemUnmap => "SAHNE_SYSCALL_SHARED_MEM_UNMAP"
  | .messageSend => "SAHNE_SYSCALL_MESSAGE_SEND"
  | .messageReceive => "SAHNE_SYSCALL_MESSAGE_RECEIVE"
  | .getKernelInfo => "SAHNE_SYSCALL_GET_KERNEL_INFO"
  | .getTime => "SAHNE_SYSCALL_GET_SYSTEM_TIME"

/-- The table entries that carry a boundary operation. -/
def BoundaryOp.entries (op : BoundaryOp) : List (String × Nat) :=
  sahne_syscall_numbers.filter (fun e => e.1 == op.constName)

/-- The boundary operations whose constant has the number `n`. -/
def opsOfNumber (n : Nat) : List BoundaryOp :=
  BoundaryOp.listed.filter
    (fun op => op.entries.any (fun e => e.2 == n))

/-! ## Resource modes (`sahne.h`, lines 61-66) -/

def SAHNE_MODE_READ : Nat := 1 <<< 0
def SAHNE_MODE_WRITE : Nat := 1 <<< 1
def SAHNE_MODE_CREATE : Nat := 1 <<< 2
def SAHNE_MODE_EXCLUSIVE : Nat := 1 <<< 3
def SAHNE_MODE_TRUNCATE : Nat := 1 <<< 4

/-- The five `SAHNE_MODE_*` flags, in the order of the header. -/
def sahne_mode_flags : List Nat :=
  [ SAHNE_MODE_READ, SAHNE_MODE_WRITE, SAHNE_MODE_CREATE,
    SAHNE_MODE_EXCLUSIVE, SAHNE_MODE_TRUNCATE ]

/-- The bitwise OR of a collection of flags, as a caller builds a mode
(`SAHNE_MODE_READ | SAHNE_MODE_WRITE | ...`). -/
def modeOf (flags : List Nat) : Nat :=
  flags.foldl (fun acc f => acc ||| f) 0

/-- Flag `f` is set in mode `m`: `(m & f) != 0`. -/
def modeHas (m f : Nat) : Bool :=
  (m &&& f) != 0

/-! ## The typed operations of the interface (`sahne.h`, lines 79-282)

A call of a typed operation is recorded with the arguments of its C
declaration. Pointer arguments are addresses; the identifier passed to
`sahne_resource_acquire` is recorded together with the bytes it points to. -/

/-- An address in the address space of the calling task. -/
abbrev Addr := Nat

/-- A call of one of the typed operations declared in `sahne.h`. -/
inductive Call
  | sahne_mem_allocate (size : Nat) (out_ptr : Addr)
  | sahne_mem_release (ptr : Nat) (size : Nat)
  | sahne_mem_create_shared (size : Nat) (out_handle : Addr)
  | sahne_mem_map_shared (handle : sahne_handle_t) (offset size : Nat) (out_ptr : Addr)
  | sahne_mem_unmap_shared (addr : Nat) (size : Nat)
  | sahne_task_spawn (code_handle : sahne_handle_t) (args_ptr : Addr) (args_len : Nat)
      (out_task_id : Addr)
  | sahne_task_exit (code : Int)
  | sahne_task_current_id (out_task_id : Addr)
  | sahne_task_sleep (milliseconds : Nat)
  | sahne_thread_create (entry_point : Nat) (stack_size : Nat) (arg : Nat)
      (out_thread_id : Addr)
  | sahne_thread_exit (code : Int)
  | sahne_task_yield
  | sahne_resource_acquire (id_ptr : Addr) (id : String) (id_len : Nat) (mode : Nat)
      (out_handle : Addr)
  | sahne_resource_read (handle : sahne_handle_t) (buffer_ptr : Addr) (buffer_len : Nat)
      (out_bytes_read : Addr)
  | sahne_resource_write (handle : sahne_handle_t) (buffer_ptr : Addr) (buffer_len : Nat)
      (out_bytes_written : Addr)
  | sahne_resource_release (handle : sahne_handle_t)
  | sahne_resource_control (handle : sahne_handle_t) (request : Nat) (arg : Nat)
      (out_result : Addr)
  | sahne_kernel_get_info (info_type : Nat) (out_value : Addr)
  | sahne_kernel_get_time (out_time : Addr)
  | sahne_sync_lock_create (out_handle : Addr)
  | sahne_sync_lock_acquire (handle : sahne_handle_t)
  | sahne_sync_lock_release (handle : sahne_handle_t)
  | sahne_msg_send (target_task : sahne_task_id_t) (message_ptr : Addr) (message_len : Nat)
  | sahne_msg_receive (buffer_ptr : Addr) (buffer_len : Nat) (out_bytes_received : Addr)
  deriving DecidableEq, Repr

/-- The handle a call operates on, for the operations that take one. -/
def Call.handleArg : Call → Option sahne_handle_t
  | .sahne_mem_map_shared h _ _ _ => some h
  | .sahne_task_spawn h _ _ _ => some h
  | .sahne_resource_read h _ _ _ => some h
  | .sahne_resource_write h _ _ _ => some h
  | .sahne_resource_release h => some h
  | .sahne_resource_control h _ _ _ => some h
  | .sahne_sync_lock_acquire h => some h
  | .sahne_sync_lock_release h => some h
  | _ => none

/-- The call is a `sahne_resource_release`. -/
def Call.isResourceRelease : Call → Bool
  | .sahne_resource_release _ => true
  | _ => false

/-- The call is a `sahne_resource_acquire`. -/
def Call.isResourceAcquire : Call → Bool
  | .sahne_resource_acquire _ _ _ _ _ => true
  | _ => false

/-- The call is a `sahne_mem_release`. -/
def Call.isMemRelease : Call → Bool
  | .sahne_mem_release _ _ => true
  | _ => false

/-- The call is a `sahne_mem_allocate`. -/
def Call.isMemAllocate : Call → Bool
  | .sahne_mem_allocate _ _ => true
  | _ => false

/-- A call with its pointer arguments erased: the operation and its scalar
arguments only. -/
inductive ScalarCall
  | mem_allocate (size : Nat)
  | mem_release (ptr : Nat) (size : Nat)
  | mem_create_shared (size : Nat)
  | mem_map_shared (handle : sahne_handle_t) (offset size : Nat)
  | mem_unmap_shared (addr : Nat) (size : Nat)
  | task_spawn (code_handle : sahne_handle_t) (args_len : Nat)
  | task_exit (code : Int)
  | task_current_id
  | task_sleep (milliseconds : Nat)
  | thread_create (entry_point : Nat) (stack_size : Nat) (arg : Nat)
  | thread_exit (code : Int)
  | task_yield
  | resource_acquire (id : String) (id_len : Nat) (mode : Nat)
  | resource_read (handle : sahne_handle_t) (buffer_len : Nat)
  | resource_write (handle : sahne_handle_t) (buffer_len : Nat)
  | resource_release (handle : sahne_handle_t)
  | resource_control (handle : sahne_handle_t) (request : Nat) (arg : Nat)
  | kernel_get_info (info_type : Nat)
  | kernel_get_time
  | sync_lock_create
  | sync_lock_acquire (handle : sahne_handle_t)
  | sync_lock_release (handle : sahne_handle_t)
  | msg_send (target_task : sahne_task_id_t) (message_len : Nat)
  | msg_receive (buffer_len : Nat)
  deriving DecidableEq, Repr

/-- Erase the addresses of a call. -/
def Call.scalars : Call → ScalarCall
  | .sahne_mem_allocate size _ => .mem_allocate size
  | .sahne_mem_release ptr size => .mem_release ptr size
  | .sahne_mem_create_shared size _ => .mem_create_shared size
  | .sahne_mem_map_shared h off size _ => .mem_map_shared h off size
  | .sahne_mem_unmap_shared addr size => .mem_unmap_shared addr size
  | .sahne_task_spawn h _ len _ => .task_spawn h len
  | .sahne_task_exit code => .task_exit code
  | .sahne_task_current_id _ => .task_current_id
  | .sahne_task_sleep ms => .task_sleep ms
  | .sahne_thread_create e s a _ => .thread_create e s a
  | .sahne_thread_exit code => .thread_exit code
  | .sahne_task_yield => .task_yield
  | .sahne_resource_acquire _ id len mode _ => .resource_acquire id len mode
  | .sahne_resource_read h _ len _ => .resource_read h len
  | .sahne_resource_write h _ len _ => .resource_write h len
  | .sahne_resource_release h => .resource_release h
  | .sahne_resource_control h req arg _ => .resource_control h req arg
  | .sahne_kernel_get_info t _ => .kernel_get_info t
  | .sahne_kernel_get_time _ => .kernel_get_time
  | .sahne_sync_lock_create _ => .sync_lock_create
  | .sahne_sync_lock_acquire h => .sync_lock_acquire h
  | .sahne_sync_lock_release h => .sync_lock_release h
  | .sahne_msg_send t _ len => .msg_send t len
  | .sahne_msg_receive _ len _ => .msg_receive len

/-! ## Executions of a user program against the kernel -/

/-- What a returning interface call hands back: the `sahne_error_t` it
returns and the value it stored through its output parameter, if it stored
one. -/
structure Response where
  err : sahne_error_t
  out : Option Nat
  deriving DecidableEq, Repr

/-- The results returned by the kernel, in sequence: the call that is the
`n`-th to return (counting from 0) is answered with `k n`. Every call but
`sahne_task_exit` is taken to return. -/
abbrev Kernel := Nat → Response

/-- An output stream of a program. -/
inductive Stream
  | stdout
  | stderr
  deriving DecidableEq, Repr

/-- A piece of printed output: literal text (for `printf`, the format
string), or a value handed to the printing routine. -/
inductive Item
  | text (s : String)
  | int (v : Int)
  | nat (v : Nat)
  | indeterminate
  | endl
  deriving DecidableEq, Repr

/-- The printed form of a variable that is indeterminate until stored to. -/
def Item.ofVar : Option Nat → Item
  | some v => .nat v
  | none => .indeterminate

/-- The memory of the task as far as a program's own stores go: whether the
task may write the byte at an address when it stores there. An address the
kernel handed out need not be one. -/
abbrev Memory := Nat → Bool

/-- An observable step of a program. A call is recorded with its response;
a call that does not return has none. A store through a pointer is recorded
when it goes through, a fault when the byte may not be written. -/
inductive Event
  | print (s : Stream) (items : List Item)
  | store (addr : Nat) (index : Nat) (byte : Nat)
  | fault (addr : Nat)
  | call (c : Call) (r : Option Response)
  deriving DecidableEq, Repr

/-- The state of an execution: the events so far and the number of kernel
results consumed. -/
structure Exec where
  trace : List Event
  answered : Nat
  deriving DecidableEq, Repr

/-- How an execution ends: the program returns a value, the task is
terminated inside a call that does not return, or the task dies at a store
to memory it may not write. -/
inductive Outcome (α : Type)
  | returned (value : α) (e : Exec)
  | exited (e : Exec)
  | faulted (e : Exec)

/-- What follows an outcome: the rest runs only after a return. -/
def Outcome.andThen {α β : Type} (o : Outcome α) (g : α → Exec → Outcome β) : Outcome β :=
  match o with
  | .returned a e1 => g a e1
  | .exited e1 => .exited e1
  | .faulted e1 => .faulted e1

/-- A program run against a sequence of kernel results and a memory. -/
def Prog (α : Type) : Type := Kernel → Memory → Exec → Outcome α

/-- Sequencing: what follows a terminated task is not run. -/
def Prog.bind {α β : Type} (x : Prog α) (f : α → Prog β) : Prog β :=
  fun k w e => (x k w e).andThen (fun a e1 => f a k w e1)

instance : Monad Prog where
  pure a := fun _ _ e => .returned a e
  bind := Prog.bind

/-- Record an event. -/
def emit (ev : Event) : Prog Unit :=
  fun _ _ e => .returned () { e with trace := e.trace ++ [ev] }

/-- The store `((uint8_t*)addr)[index] = byte`: it goes through if the task
may write that byte, and kills the task otherwise. -/
def store (addr index byte : Nat) : Prog Unit :=
  fun _ w e =>
    if w (addr + index) = true then
      .returned () { e with trace := e.trace ++ [.store addr index byte] }
    else
      .faulted { e with trace := e.trace ++ [.fault (addr + index)] }

/-- Issue a call that returns: it is answered with the next kernel result. -/
def invoke (c : Call) : Prog Response :=
  fun k _ e =>
    let r := k e.answered
    .returned r { trace := e.trace ++ [.call c (some r)], answered := e.answered + 1 }

/-- `sahne_error_t sahne_task_current_id(sahne_task_id_t* out_task_id);` -/
def sahne_task_current_id (out_task_id : Addr) : Prog Response :=
  invoke (.sahne_task_current_id out_task_id)

/-- `sahne_error_t sahne_mem_allocate(size_t size, void** out_ptr);` -/
def sahne_mem_allocate (size : Nat) (out_ptr : Addr) : Prog Response :=
  invoke (.sahne_mem_allocate size out_ptr)

/-- `sahne_error_t sahne_mem_release(void* ptr, size_t size);` -/
def sahne_mem_release (ptr : Nat) (size : Nat) : Prog Response :=
  invoke (.sahne_mem_release ptr size)

/-- `sahne_error_t sahne_resource_acquire(const char* id_ptr, size_t id_len,
uint32_t mode, sahne_handle_t* out_handle);` -/
def sahne_resource_acquire (id_ptr : Addr) (id : String) (id_len : Nat) (mode : Nat)
    (out_handle : Addr) : Prog Response :=
  invoke (.sahne_resource_acquire id_ptr id id_len mode out_handle)

/-- `sahne_error_t sahne_resource_read(sahne_handle_t handle, uint8_t* buffer_ptr,
size_t buffer_len, size_t* out_bytes_read);` -/
def sahne_resource_read (handle : sahne_handle_t) (buffer_ptr : Addr) (buffer_len : Nat)
    (out_bytes_read : Addr) : Prog Response :=
  invoke (.sahne_resource_read handle buffer_ptr buffer_len out_bytes_read)

/-- `sahne_error_t sahne_resource_release(sahne_handle_t handle);` -/
def sahne_resource_release (handle : sahne_handle_t) : Prog Response :=
  invoke (.sahne_resource_release handle)

/-- `void sahne_task_exit(int32_t code) __attribute__((noreturn));` -/
def sahne_task_exit (code : Int) : Prog Empty :=
  fun _ _ e => .exited { e with trace := e.trace ++ [.call (.sahne_task_exit code) none] }

/-- `strlen` of a string without embedded NUL: its length in bytes. -/
def strlen (s : String) : Nat := s.utf8ByteSize

/-- Where the locals that a demo program passes by address live. -/
structure Frame where
  task_id : Addr
  allocated_mem : Addr
  res_name : Addr
  file_handle : Addr
  buffer : Addr
  bytes_read : Addr
  deriving DecidableEq, Repr

/-- Run a program from the start. -/
def run {α : Type} (p : Prog α) (k : Kernel) (w : Memory) : Outcome α :=
  p k w { trace := [], answered := 0 }

/-- The final state of an execution. -/
def Outcome.exec {α : Type} : Outcome α → Exec
  | .returned _ e => e
  | .exited e => e
  | .faulted e => e

/-- The three ways an execution ends. -/
inductive Ending
  | returned
  | exited
  | faulted
  deriving DecidableEq, Repr

/-- The way an execution ended. -/
def Outcome.ending {α : Type} : Outcome α → Ending
  | .returned _ _ => .returned
  | .exited _ => .exited
  | .faulted _ => .faulted

/-- The interface calls of a trace, in order, each with its response. -/
def callsOf : List Event → List (Call × Option Response)
  | [] => []
  | .call c r :: es => (c, r) :: callsOf es
  | _ :: es => callsOf es

/-- The interface calls an execution made. -/
def Outcome.calls {α : Type} (o : Outcome α) : List (Call × Option Response) :=
  callsOf o.exec.trace

/-! ## `main.c` -/

namespace MainC

/-- `int main()` of `main.c`. -/
def main (fr : Frame) : Prog Int := do
  -- sahne_task_id_t task_id; sahne_error_t err;
  emit (.print .stdout [.text "Sahne64 C Program Starting...\n"])
  -- Get current task ID
  let r ← sahne_task_current_id fr.task_id
  let task_id : Option Nat := r.out
  let err := r.err
  if err = SAHNE_SUCCESS then
    emit (.print .stdout [.text "Current Task ID: %llu\n", Item.ofVar task_id])
  else
    emit (.print .stderr [.text "Failed to get Task ID, error: %d\n", .int err])
  -- Memory allocation
  let allocated_mem : Nat := 0
  let mem_size : Nat := 1024
  let r ← sahne_mem_allocate mem_size fr.allocated_mem
  let allocated_mem := r.out.getD allocated_mem
  let err := r.err
  if err = SAHNE_SUCCESS then
    emit (.print .stdout [.text "Allocated %zu bytes at %p\n", .nat mem_size, .nat allocated_mem])
    if allocated_mem ≠ 0 then
      store allocated_mem 0 42
    -- Release memory
    let r ← sahne_mem_release allocated_mem mem_size
    let err := r.err
    if err = SAHNE_SUCCESS then
      emit (.print .stdout [.text "Released allocated memory.\n"])
    else
      emit (.print .stderr [.text "Failed to release memory, error: %d\n", .int err])
  else
    emit (.print .stderr [.text "Memory allocation failed, error: %d\n", .int err])
  -- Resource acquire/read
  let file_handle : sahne_handle_t := 0
  let res_name : String := "sahne://test/file"
  let mode : Nat := SAHNE_MODE_READ ||| SAHNE_MODE_WRITE ||| SAHNE_MODE_CREATE
  let r ← sahne_resource_acquire fr.res_name res_name (strlen res_name) mode fr.file_handle
  let file_handle := r.out.getD file_handle
  let err := r.err
  if err = SAHNE_SUCCESS then
    emit (.print .stdout
      [.text "Acquired resource '%s', Handle: %llu\n", .text res_name, .nat file_handle])
    -- char buffer[256];
    let sizeof_buffer : Nat := 256
    let bytes_read : Nat := 0
    let r ← sahne_resource_read file_handle fr.buffer sizeof_buffer fr.bytes_read
    let bytes_read := r.out.getD bytes_read
    let err := r.err
    if err = SAHNE_SUCCESS then
      emit (.print .stdout [.text "Read %zu bytes from resource.\n", .nat bytes_read])
    else
      emit (.print .stderr [.text "Failed to read from resource, error: %d\n", .int err])
    -- Release resource handle
    let r ← sahne_resource_release file_handle
    let err := r.err
    if err = SAHNE_SUCCESS then
      emit (.print .stdout [.text "Released resource handle.\n"])
    else
      emit (.print .stderr [.text "Failed to release resource handle, error: %d\n", .int err])
  else
    emit (.print .stderr
      [.text "Failed to acquire resource '%s', error: %d\n", .text res_name, .int err])
  emit (.print .stdout [.text "Sahne64 C Program Exiting.\n"])
  let _ ← sahne_task_exit 0
  return 0

end MainC

/-! ## `main.cpp` -/

namespace MainCpp

/-- `int main()` of `main.cpp`. -/
def main (fr : Frame) : Prog Int := do
  -- sahne_task_id_t task_id; sahne_error_t err;
  emit (.print .stdout [.text "Sahne64 C++ Program Starting...", .endl])
  -- Get current task ID
  let r ← sahne_task_current_id fr.task_id
  let task_id : Option Nat := r.out
  let err := r.err
  if err = SAHNE_SUCCESS then
    emit (.print .stdout [.text "Current Task ID: ", Item.ofVar task_id, .endl])
  else
    emit (.print .stderr [.text "Failed to get Task ID, error: ", .int err, .endl])
  -- Memory allocation
  let allocated_mem : Nat := 0
  let mem_size : Nat := 1024
  let r ← sahne_mem_allocate mem_size fr.allocated_mem
  let allocated_mem := r.out.getD allocated_mem
  let err := r.err
  if err = SAHNE_SUCCESS then
    emit (.print .stdout
      [.text "Allocated ", .nat mem_size, .text " bytes at ", .nat allocated_mem, .endl])
    if allocated_mem ≠ 0 then
      store allocated_mem 0 42
    -- Release memory
    let r ← sahne_mem_release allocated_mem mem_size
    let err := r.err
    if err = SAHNE_SUCCESS then
      emit (.print .stdout [.text "Released allocated memory.", .endl])
    else
      emit (.print .stderr [.text "Failed to release memory, error: ", .int err, .endl])
  else
    emit (.print .stderr [.text "Memory allocation failed, error: ", .int err, .endl])
  -- Resource acquire/read
  let file_handle : sahne_handle_t := 0
  let res_name : String := "sahne://test/file"
  let mode : Nat := SAHNE_MODE_READ ||| SAHNE_MODE_WRITE ||| SAHNE_MODE_CREATE
  let r ← sahne_resource_acquire fr.res_name res_name res_name.utf8ByteSize mode fr.file_handle
  let file_handle := r.out.getD file_handle
  let err := r.err
  if err = SAHNE_SUCCESS then
    emit (.print .stdout
      [.text "Acquired resource '", .text res_name, .text "', Handle: ", .nat file_handle,
        .endl])
    -- std::vector<uint8_t> buffer(256);
    let buffer : List Nat := List.replicate 256 0
    let bytes_read : Nat := 0
    let r ← sahne_resource_read file_handle fr.buffer buffer.length fr.bytes_read
    let bytes_read := r.out.getD bytes_read
    let err := r.err
    if err = SAHNE_SUCCESS then
      emit (.print .stdout [.text "Read ", .nat bytes_read, .text " bytes from resource.", .endl])
    else
      emit (.print .stderr [.text "Failed to read from resource, error: ", .int err, .endl])
    -- Release resource handle
    let r ← sahne_resource_release file_handle
    let err := r.err
    if err = SAHNE_SUCCESS then
      emit (.print .stdout [.text "Released resource handle.", .endl])
    else
      emit (.print .stderr
        [.text "Failed to release resource handle, error: ", .int err, .endl])
  else
    emit (.print .stderr
      [.text "Failed to acquire resource '", .text res_name, .text "', error: ", .int err,
        .endl])
  emit (.print .stdout [.text "Sahne64 C++ Program Exiting.", .endl])
  let _ ← sahne_task_exit 0
  return 0

end MainCpp

/-! ## Properties of call sequences -/

/-- A sequence of interface calls, each with its response. -/
abbrev Calls := List (Call × Option Response)

/-- The store of the demo programs through the allocated pointer faults: the
second kernel result, which answers `sahne_mem_allocate`, reports
`SAHNE_SUCCESS` and leaves in `allocated_mem` an address that is not `NULL`
and that the task may not write. -/
def storeFaults (k : Kernel) (w : Memory) : Bool :=
  decide ((k 1).err = SAHNE_SUCCESS) && decide ((k 1).out.getD 0 ≠ 0) &&
    !(w ((k 1).out.getD 0 + 0))

/-- The trace position after a call that returned `err` holds a report of it:
a print on the error stream that carries the code. -/
def failureReported (err : sahne_error_t) : List Event → Bool
  | .print .stderr items :: _ => items.contains (.int err)
  | _ => false

/-- Every call of the trace that returned something other than
`SAHNE_SUCCESS` is directly followed by a print on the error stream that
carries the returned code. -/
def reportsFailures : List Event → Bool
  | [] => true
  | .call _ (some r) :: rest =>
      (decide (r.err = SAHNE_SUCCESS) || failureReported r.err rest) && reportsFailures rest
  | .call _ none :: rest => reportsFailures rest
  | .print _ _ :: rest => reportsFailures rest
  | .store _ _ _ :: rest => reportsFailures rest
  | .fault _ :: rest => reportsFailures rest

/-- A frame for concrete runs. -/
def exampleFrame : Frame :=
  { task_id := 100, allocated_mem := 108, res_name := 200, file_handle := 116,
    buffer := 300, bytes_read := 124 }

/-- A kernel whose every call succeeds; the allocation leaves 4096 in
`allocated_mem` and the acquisition the handle 7. -/
def obligingKernel : Kernel :=
  fun n => if n = 1 then ⟨SAHNE_SUCCESS, some 4096⟩
    else if n = 3 then ⟨SAHNE_SUCCESS, some 7⟩ else ⟨SAHNE_SUCCESS, some 5⟩

/-- A memory in which the task may write nothing. -/
def unmappedMemory : Memory := fun _ => false

/-- A kernel whose every call fails with `SAHNE_ERROR_INVALID_PARAMETER` and
stores nothing. -/
def failingKernel : Kernel := fun _ => ⟨SAHNE_ERROR_INVALID_PARAMETER, none⟩

/-- The calls both demo programs make when the store through the allocated
pointer does not fault, in closed form: task id, allocation (with its release
when it succeeded), acquisition (with the read and the release when it
succeeded), exit. The response of a call is the next kernel result. -/
def demoCalls (fr : Frame) (k : Kernel) : Calls :=
  let i := if (k 1).err = SAHNE_SUCCESS then 3 else 2
  (Call.sahne_task_current_id fr.task_id, some (k 0)) ::
  (Call.sahne_mem_allocate 1024 fr.allocated_mem, some (k 1)) ::
  ((if (k 1).err = SAHNE_SUCCESS then
      [(Call.sahne_mem_release ((k 1).out.getD 0) 1024, some (k 2))]
    else []) ++
   (Call.sahne_resource_acquire fr.res_name "sahne://test/file" 17 7 fr.file_handle,
      some (k i)) ::
   ((if (k i).err = SAHNE_SUCCESS then
      [(Call.sahne_resource_read ((k i).out.getD 0) fr.buffer 256 fr.bytes_read,
          some (k (i + 1))),
       (Call.sahne_resource_release ((k i).out.getD 0), some (k (i + 2)))]
    else []) ++
    [(Call.sahne_task_exit 0, none)]))

/-- The calls both demo programs make when the store through the allocated
pointer faults: task id and allocation, nothing more. -/
def demoCallsFaulting (fr : Frame) (k : Kernel) : Calls :=
  [(Call.sahne_task_current_id fr.task_id, some (k 0)),
   (Call.sahne_mem_allocate 1024 fr.allocated_mem, some (k 1))]

/-- What both demo programs do, in closed form: the execution never returns
from `main`; it dies at the store exactly when `storeFaults`, having called
`demoCallsFaulting`, and otherwise ends inside `sahne_task_exit`, having
called `demoCalls`; and every failed call is reported. -/
def DemoRun (fr : Frame) (k : Kernel) (w : Memory) (o : Outcome Int) : Prop :=
  o.ending = (if storeFaults k w = true then Ending.faulted else Ending.exited) ∧
  o.calls = (if storeFaults k w = true then demoCallsFaulting fr k else demoCalls fr k) ∧
  reportsFailures o.exec.trace = true

/-- The acquire / release pairing discipline on a sequence of calls: there is
one `sahne_resource_acquire`; nothing before it takes a handle; if it did not
return `SAHNE_SUCCESS` nothing after it takes a handle either; if it did,
exactly one `sahne_resource_release` follows, on the handle left in the
output variable (the value acquire stored, the initial `0` if it stored
none), with only a `sahne_resource_read` of that handle in between, whatever
that read returned, and nothing after the release takes a handle. -/
def ResourcePairing (cs : Calls) : Prop :=
  ∃ (pre post : Calls) (id_ptr : Addr) (id : String) (id_len mode : Nat) (out : Addr)
      (ra : Response),
    cs = pre ++ (Call.sahne_resource_acquire id_ptr id id_len mode out, some ra) :: post ∧
    (∀ c ∈ pre, c.1.handleArg = none ∧ c.1.isResourceAcquire = false) ∧
    (∀ c ∈ post, c.1.isResourceAcquire = false) ∧
    (cs.countP (fun c => c.1.isResourceRelease) = if ra.err = SAHNE_SUCCESS then 1 else 0) ∧
    (ra.err ≠ SAHNE_SUCCESS → ∀ c ∈ post, c.1.handleArg = none) ∧
    (ra.err = SAHNE_SUCCESS →
      ∃ (buffer_ptr : Addr) (buffer_len : Nat) (out_bytes_read : Addr) (rr rl : Response)
          (tail : Calls),
        post =
          (Call.sahne_resource_read (ra.out.getD 0) buffer_ptr buffer_len out_bytes_read,
              some rr) ::
          (Call.sahne_resource_release (ra.out.getD 0), some rl) :: tail ∧
        (∀ c ∈ tail, c.1.handleArg = none))

/-- The stages of the demo run in order whatever they return: the calls
start with `sahne_task_current_id`, then `sahne_mem_allocate`; a
`sahne_resource_acquire` follows (after at most the memory release); and the
last call is `sahne_task_exit(0)`, which has no response. -/
def StagesInOrder (cs : Calls) : Prop :=
  ∃ (a0 a1 : Addr) (size : Nat) (r0 r1 ra : Response) (mid rest : Calls)
      (id_ptr : Addr) (id : String) (id_len mode : Nat) (out : Addr),
    cs = (Call.sahne_task_current_id a0, some r0) ::
         (Call.sahne_mem_allocate size a1, some r1) ::
         (mid ++ (Call.sahne_resource_acquire id_ptr id id_len mode out, some ra) ::
           (rest ++ [(Call.sahne_task_exit 0, none)])) ∧
    (∀ c ∈ mid, c.1.isMemRelease = true) ∧
    (∀ c ∈ rest, c.1.handleArg ≠ none)

/-- The scalar arguments the demo programs use. -/
def ScalarCall.demoArgs : ScalarCall → Bool
  | .task_current_id => true
  | .mem_allocate size => size == 1024
  | .mem_release _ size => size == 1024
  | .resource_acquire id id_len mode =>
      id == "sahne://test/file" && id.utf8ByteSize == 17 && id_len == 17 && mode == 7
  | .resource_read _ buffer_len => buffer_len == 256
  | .resource_release _ => true
  | .task_exit code => code == 0
  | _ => false

/-! ## Handle lifecycle -/

/-- Modelled from the spec: the states of a handle. The implementation of the
handle operations (`sahne_resource_release` and the others) is missing from
the sources, which only declare them; the specification gives the state
machine `Unacquired → Acquired → Released`. -/
inductive HandleState
  | unacquired
  | acquired
  | released
  deriving DecidableEq, Repr

/-- Modelled from the spec: the operations on a handle that only the
Acquired state permits (read, write, control, lock); the implementation is
missing from the sources. -/
inductive HandleUse
  | read
  | write
  | control
  | lock
  deriving DecidableEq, Repr

/-- Modelled from the spec: a request at the kernel boundary, as far as
handles go; the kernel side is missing from the sources. `acquire h` is an
acquire-style call (`*_create` / `*_acquire`) that the kernel answers with
the handle `h`; `use op h res` is an operation on `h` whose result is `res`
when the handle state permits it. -/
inductive Request
  | acquire (h : sahne_handle_t)
  | release (h : sahne_handle_t)
  | use (op : HandleUse) (h : sahne_handle_t) (res : sahne_error_t)
  deriving DecidableEq, Repr

/-- Modelled from the spec: the state of every handle of a task; the
kernel's table is missing from the sources. -/
abbrev Registry := sahne_handle_t → HandleState

/-- Modelled from the spec: at task start no handle has been acquired. -/
def Registry.init : Registry := fun _ => .unacquired

/-- Modelled from the spec: a transition of one handle of the table (the
kernel's table is missing from the sources); the other handles keep their
state. -/
def Registry.set (σ : Registry) (h : sahne_handle_t) (s : HandleState) : Registry :=
  fun h1 => if h1 = h then s else σ h1

/-- Modelled from the spec: one step of the handle state machine (the
kernel-side implementation is missing from the sources). An acquire-style
call takes a handle from Unacquired to Acquired, and the machine has no other
way into Acquired, so an acquire answered with a handle that is not
Unacquired is not a step (`none`). A release consumes an Acquired handle.
Any operation, release included, on a handle that is Released or was never
acquired fails with `SAHNE_ERROR_INVALID_HANDLE` and changes nothing. -/
def Registry.step (σ : Registry) : Request → Option (Registry × sahne_error_t)
  | .acquire h =>
      if σ h = .unacquired then some (σ.set h .acquired, SAHNE_SUCCESS) else none
  | .release h =>
      if σ h = .acquired then some (σ.set h .released, SAHNE_SUCCESS)
      else some (σ, SAHNE_ERROR_INVALID_HANDLE)
  | .use _ h res =>
      if σ h = .acquired then some (σ, res) else some (σ, SAHNE_ERROR_INVALID_HANDLE)

/-- Modelled from the spec: a sequence of requests, with the result of each;
`none` if some request is not a step of the machine. -/
def Registry.run (σ : Registry) : List Request → Option (Registry × List sahne_error_t)
  | [] => some (σ, [])
  | q :: qs =>
      match σ.step q with
      | none => none
      | some (σ1, r) =>
          match Registry.run σ1 qs with
          | none => none
          | some (σ2, rs) => some (σ2, r :: rs)

/-- Every operation on handle `h` fails with `SAHNE_ERROR_INVALID_HANDLE` in
state `σ`, leaving the state as it is. -/
def Registry.Dead (σ : Registry) (h : sahne_handle_t) : Prop :=
  σ.step (.release h) = some (σ, SAHNE_ERROR_INVALID_HANDLE) ∧
  ∀ (op : HandleUse) (res : sahne_error_t),
    σ.step (.use op h res) = some (σ, SAHNE_ERROR_INVALID_HANDLE)

/-! ## The code tables of `sahne.h` -/

/-- C1: the success marker is distinguishable from every error value. For
every `sahne_error_t` value `e`, if `e == SAHNE_SUCCESS` then `e` is none of
the 16 `SAHNE_ERROR_*` codes of `sahne.h`, that is, the code of no error
kind. -/
theorem success_marker_is_no_error (e : sahne_error_t) (h : e = SAHNE_SUCCESS) :
    (∀ c ∈ sahne_error_codes, e ≠ c.2) ∧ (∀ k : ErrorKind, k.code ≠ some e) := by
  subst h
  exact ⟨by decide, by decide⟩

theorem success_marker_is_no_error_witness :
    (0 : sahne_error_t) = SAHNE_SUCCESS ∧
      (∀ c ∈ sahne_error_codes, (0 : sahne_error_t) ≠ c.2) ∧
      (∀ k : ErrorKind, k.code ≠ some 0) :=
  ⟨rfl, success_marker_is_no_error 0 rfl⟩

/-- C2: the error enumeration is closed and unambiguous. `sahne.h` defines
exactly 16 `SAHNE_ERROR_*` codes, pairwise distinct, with the values 1..16;
they stand, in the same order, for the 16 kinds the specification lists
(out-of-memory = 1, ..., communication-error = 16); and for every negative
raw result `r` with `-16 ≤ r ≤ -1` the magnitude `-r` is the code of exactly
one kind. -/
theorem error_enumeration_closed (r : Int) (hlo : -16 ≤ r) (hhi : r ≤ -1) :
    sahne_error_codes.length = 16 ∧
    (sahne_error_codes.map Prod.snd).Nodup ∧
    sahne_error_codes.map Prod.snd = [1, 2, 3, 4, 5, 6, 7, 8, 9, 10, 11, 12, 13, 14, 15, 16] ∧
    ErrorKind.listed.map ErrorKind.constName = sahne_error_codes.map Prod.fst ∧
    ErrorKind.listed.map ErrorKind.code =
      [some 1, some 2, some 3, some 4, some 5, some 6, some 7, some 8, some 9, some 10,
        some 11, some 12, some 13, some 14, some 15, some 16] ∧
    (∀ k : ErrorKind, k ∈ ErrorKind.listed) ∧
    (∃ k : ErrorKind, k.code = some (-r) ∧ ∀ k1 : ErrorKind, k1.code = some (-r) → k1 = k) := by
  refine ⟨by decide, by decide, by decide, by decide, by decide, by decide, ?_⟩
  have key : ∀ n : Fin 16, ∃ k : ErrorKind, k.code = some (Int.ofNat (n.val + 1)) ∧
      ∀ k1 : ErrorKind, k1.code = some (Int.ofNat (n.val + 1)) → k1 = k := by decide
  have hn : (-r - 1).toNat < 16 := by omega
  have hr : -r = Int.ofNat ((-r - 1).toNat + 1) := by
    simp only [Int.ofNat_eq_coe]
    omega
  rw [hr]
  exact key ⟨(-r - 1).toNat, hn⟩

theorem error_enumeration_closed_witness :
    (-16 : Int) ≤ -13 ∧ (-13 : Int) ≤ -1 ∧
    (∃ k : ErrorKind, k.code = some (-(-13)) ∧
      ∀ k1 : ErrorKind, k1.code = some (-(-13)) → k1 = k) :=
  ⟨by decide, by decide, (error_enumeration_closed (-13) (by decide) (by decide)).2.2.2.2.2.2⟩

/-- C3, as `sahne.h` has it: the header defines no value for an unknown kernel
error. Every code of its success / error section carries the name of
`SAHNE_SUCCESS` or of one of the 16 kinds. What holds of an out-of-range
magnitude `m > 16` is that it is equal to none of the defined codes: not to
`SAHNE_SUCCESS`, not to the code of any of the 16 kinds, in particular not to
`SAHNE_ERROR_NOT_SUPPORTED`. -/
theorem out_of_range_magnitude_is_no_defined_code (m : Int) (h : 16 < m) :
    (∀ e ∈ sahne_defined_codes,
        e.1 = "SAHNE_SUCCESS" ∨ ∃ k : ErrorKind, k.constName = e.1) ∧
    m ≠ SAHNE_SUCCESS ∧
    (∀ k : ErrorKind, k.code ≠ some m) ∧
    m ≠ SAHNE_ERROR_NOT_SUPPORTED ∧
    (∀ e ∈ sahne_defined_codes, e.2 ≠ m) := by
  have hall : ∀ e ∈ sahne_defined_codes, e.2 ≤ 16 := by decide
  have hk : ∀ k : ErrorKind, ∃ e ∈ sahne_defined_codes, k.code = some e.2 := by decide
  refine ⟨by decide, ?_, ?_, ?_, ?_⟩
  · rintro rfl
    exact absurd h (by decide)
  · intro k hkm
    obtain ⟨e, he, hke⟩ := hk k
    rw [hke] at hkm
    have h2 : e.2 = m := Option.some.inj hkm
    exact absurd (h2 ▸ hall e he) (not_le.mpr h)
  · rintro rfl
    exact absurd h (by decide)
  · intro e he hem
    exact absurd (hem ▸ hall e he) (not_le.mpr h)

theorem out_of_range_magnitude_is_no_defined_code_witness :
    (16 : Int) < 17 ∧
    (17 : Int) ≠ SAHNE_SUCCESS ∧
    (∀ k : ErrorKind, k.code ≠ some 17) ∧
    (17 : Int) ≠ SAHNE_ERROR_NOT_SUPPORTED ∧
    (∀ e ∈ sahne_defined_codes, e.2 ≠ 17) :=
  ⟨by decide, (out_of_range_magnitude_is_no_defined_code 17 (by decide)).2⟩

/-- C3, against the claim as stated: `sahne.h` provides no "unknown kernel
error" value. None of the codes it defines is different from
`SAHNE_SUCCESS` and from the codes of all 16 kinds. -/
theorem no_unknown_error_code_provided :
    ¬ ∃ e ∈ sahne_defined_codes,
        e.2 ≠ SAHNE_SUCCESS ∧ ∀ k : ErrorKind, k.code ≠ some e.2 := by
  decide

/-- C5: the syscall number table is a well-formed ABI table. The header has
24 `SAHNE_SYSCALL_*` constants with pairwise distinct names and pairwise
distinct numbers; the specification lists 24 boundary operations; every one
of them has exactly one constant, every constant carries one of them, and a
syscall number identifies at most one operation. -/
theorem syscall_table_well_formed :
    sahne_syscall_numbers.length = 24 ∧
    (sahne_syscall_numbers.map Prod.snd).Nodup ∧
    (sahne_syscall_numbers.map Prod.fst).Nodup ∧
    BoundaryOp.listed.length = 24 ∧
    BoundaryOp.listed.Nodup ∧
    (∀ op : BoundaryOp, op ∈ BoundaryOp.listed ∧ op.entries.length = 1) ∧
    (∀ e ∈ sahne_syscall_numbers, ∃ op : BoundaryOp, op.entries = [e]) ∧
    (∀ n : Nat, (opsOfNumber n).length ≤ 1) := by
  refine ⟨by decide, by decide, by decide, by decide, by decide, by decide, by decide, ?_⟩
  intro n
  by_cases hn : n ∈ sahne_syscall_numbers.map Prod.snd
  · have key : ∀ m ∈ sahne_syscall_numbers.map Prod.snd, (opsOfNumber m).length ≤ 1 := by
      decide
    exact key n hn
  · have hnone : ∀ op : BoundaryOp, ∀ e ∈ op.entries, e.2 ∈ sahne_syscall_numbers.map Prod.snd := by
      decide
    have hempty : opsOfNumber n = [] := by
      unfold opsOfNumber
      rw [List.filter_eq_nil_iff]
      intro op _ hany
      rw [List.any_eq_true] at hany
      obtain ⟨e, he, hen⟩ := hany
      have h1 := hnone op e he
      have h2 : e.2 = n := by simpa using hen
      exact hn (h2 ▸ h1)
    simp [hempty]

/-! ## The demonstration programs: what they call -/

theorem Prog.bind_apply {α β : Type} (x : Prog α) (f : α → Prog β) (k : Kernel) (w : Memory)
    (e : Exec) : (x >>= f) k w e = (x k w e).andThen (fun a e1 => f a k w e1) := rfl

theorem Prog.ite_apply {α : Type} (c : Prop) [Decidable c] (x y : Prog α) (k : Kernel)
    (w : Memory) (e : Exec) :
    (if c then x else y) k w e = if c then x k w e else y k w e := by
  split <;> rfl

theorem Outcome.andThen_ite {α β : Type} (c : Prop) [Decidable c] (a b : Outcome α)
    (g : α → Exec → Outcome β) :
    (if c then a else b).andThen g = if c then a.andThen g else b.andThen g := by
  split <;> rfl

theorem Outcome.andThen_returned {α β : Type} (a : α) (e : Exec)
    (g : α → Exec → Outcome β) : (Outcome.returned a e).andThen g = g a e := rfl

theorem Outcome.andThen_exited {α β : Type} (e : Exec) (g : α → Exec → Outcome β) :
    (Outcome.exited e : Outcome α).andThen g = .exited e := rfl

theorem Outcome.andThen_faulted {α β : Type} (e : Exec) (g : α → Exec → Outcome β) :
    (Outcome.faulted e : Outcome α).andThen g = .faulted e := rfl

theorem DemoRun_ite (fr : Frame) (k : Kernel) (w : Memory) (c : Prop) [Decidable c]
    (a b : Outcome Int) :
    DemoRun fr k w (if c then a else b) ↔ (c → DemoRun fr k w a) ∧ (¬ c → DemoRun fr k w b) := by
  split <;> simp [*]

theorem strlen_res_name : strlen "sahne://test/file" = 17 := by decide

theorem res_name_byte_size : "sahne://test/file".utf8ByteSize = 17 := by decide

theorem mode_read_write_create :
    SAHNE_MODE_READ ||| SAHNE_MODE_WRITE ||| SAHNE_MODE_CREATE = 7 := by decide

theorem buffer_length : (List.replicate 256 (0 : Nat)).length = 256 :=
  List.length_replicate 256 0

set_option maxHeartbeats 4000000 in
/-- Every execution of `main.c` is a `DemoRun`. -/
theorem MainC.c_main_demoRun (fr : Frame) (k : Kernel) (w : Memory) :
    DemoRun fr k w (run (MainC.main fr) k w) := by
  simp only [run, MainC.main, Prog.bind_apply, Prog.ite_apply, emit, invoke, store,
    sahne_task_current_id, sahne_mem_allocate, sahne_mem_release, sahne_resource_acquire,
    sahne_resource_read, sahne_resource_release, sahne_task_exit, strlen_res_name,
    mode_read_write_create, Nat.zero_add, Nat.add_zero, Nat.reduceAdd, List.nil_append,
    List.append_assoc, List.singleton_append, List.cons_append, Outcome.andThen_ite,
    Outcome.andThen_returned, Outcome.andThen_exited, Outcome.andThen_faulted, pure,
    DemoRun_ite]
  repeat' (first | constructor | intro _)
  all_goals
    simp [DemoRun, Outcome.ending, Outcome.calls, Outcome.exec, callsOf, reportsFailures,
      failureReported, storeFaults, demoCalls, demoCallsFaulting, *]

set_option maxHeartbeats 4000000 in
/-- Every execution of `main.cpp` is a `DemoRun`. -/
theorem MainCpp.cpp_main_demoRun (fr : Frame) (k : Kernel) (w : Memory) :
    DemoRun fr k w (run (MainCpp.main fr) k w) := by
  simp only [run, MainCpp.main, Prog.bind_apply, Prog.ite_apply, emit, invoke, store,
    sahne_task_current_id, sahne_mem_allocate, sahne_mem_release, sahne_resource_acquire,
    sahne_resource_read, sahne_resource_release, sahne_task_exit, res_name_byte_size,
    buffer_length, mode_read_write_create, Nat.zero_add, Nat.add_zero, Nat.reduceAdd,
    List.nil_append, List.append_assoc, List.singleton_append, List.cons_append,
    Outcome.andThen_ite, Outcome.andThen_returned, Outcome.andThen_exited,
    Outcome.andThen_faulted, pure, DemoRun_ite]
  repeat' (first | constructor | intro _)
  all_goals
    simp [DemoRun, Outcome.ending, Outcome.calls, Outcome.exec, callsOf, reportsFailures,
      failureReported, storeFaults, demoCalls, demoCallsFaulting, *]

theorem demoCalls_resourcePairing (fr : Frame) (k : Kernel) :
    ResourcePairing (demoCalls fr k) := by
  refine ⟨(Call.sahne_task_current_id fr.task_id, some (k 0)) ::
      (Call.sahne_mem_allocate 1024 fr.allocated_mem, some (k 1)) ::
      (if (k 1).err = SAHNE_SUCCESS then
        [(Call.sahne_mem_release ((k 1).out.getD 0) 1024, some (k 2))] else []),
    (if (k (if (k 1).err = SAHNE_SUCCESS then 3 else 2)).err = SAHNE_SUCCESS then
        [(Call.sahne_resource_read ((k (if (k 1).err = SAHNE_SUCCESS then 3 else 2)).out.getD 0)
            fr.buffer 256 fr.bytes_read,
            some (k ((if (k 1).err = SAHNE_SUCCESS then 3 else 2) + 1))),
          (Call.sahne_resource_release
            ((k (if (k 1).err = SAHNE_SUCCESS then 3 else 2)).out.getD 0),
            some (k ((if (k 1).err = SAHNE_SUCCESS then 3 else 2) + 2)))]
      else []) ++ [(Call.sahne_task_exit 0, none)],
    fr.res_name, "sahne://test/file", 17, 7, fr.file_handle,
    k (if (k 1).err = SAHNE_SUCCESS then 3 else 2), ?_, ?_, ?_, ?_, ?_, ?_⟩
  · simp only [demoCalls, List.cons_append]
  · by_cases h1 : (k 1).err = SAHNE_SUCCESS <;>
      by_cases h2 : (k 2).err = SAHNE_SUCCESS <;>
      by_cases h3 : (k 3).err = SAHNE_SUCCESS <;>
      simp [demoCalls, h1, h2, h3, Call.handleArg, Call.isResourceAcquire,
        Call.isResourceRelease, Call.isMemRelease, Call.isMemAllocate, List.countP_cons,
        Call.scalars, ScalarCall.demoArgs, res_name_byte_size]
  · by_cases h1 : (k 1).err = SAHNE_SUCCESS <;>
      by_cases h2 : (k 2).err = SAHNE_SUCCESS <;>
      by_cases h3 : (k 3).err = SAHNE_SUCCESS <;>
      simp [demoCalls, h1, h2, h3, Call.handleArg, Call.isResourceAcquire,
        Call.isResourceRelease, Call.isMemRelease, Call.isMemAllocate, List.countP_cons,
        Call.scalars, ScalarCall.demoArgs, res_name_byte_size]
  · by_cases h1 : (k 1).err = SAHNE_SUCCESS <;>
      by_cases h2 : (k 2).err = SAHNE_SUCCESS <;>
      by_cases h3 : (k 3).err = SAHNE_SUCCESS <;>
      simp [demoCalls, h1, h2, h3, Call.handleArg, Call.isResourceAcquire,
        Call.isResourceRelease, Call.isMemRelease, Call.isMemAllocate, List.countP_cons,
        Call.scalars, ScalarCall.demoArgs, res_name_byte_size]
  · by_cases h1 : (k 1).err = SAHNE_SUCCESS <;>
      by_cases h2 : (k 2).err = SAHNE_SUCCESS <;>
      by_cases h3 : (k 3).err = SAHNE_SUCCESS <;>
      simp [demoCalls, h1, h2, h3, Call.handleArg, Call.isResourceAcquire,
        Call.isResourceRelease, Call.isMemRelease, Call.isMemAllocate, List.countP_cons,
        Call.scalars, ScalarCall.demoArgs, res_name_byte_size]
  · intro heq
    refine ⟨fr.buffer, 256, fr.bytes_read,
      k ((if (k 1).err = SAHNE_SUCCESS then 3 else 2) + 1),
      k ((if (k 1).err = SAHNE_SUCCESS then 3 else 2) + 2),
      [(Call.sahne_task_exit 0, none)], ?_, ?_⟩
    · rw [if_pos heq]
      rfl
    · simp [Call.handleArg]

theorem demoCalls_stagesInOrder (fr : Frame) (k : Kernel) :
    StagesInOrder (demoCalls fr k) := by
  refine ⟨fr.task_id, fr.allocated_mem, 1024, k 0, k 1,
    k (if (k 1).err = SAHNE_SUCCESS then 3 else 2),
    (if (k 1).err = SAHNE_SUCCESS then
        [(Call.sahne_mem_release ((k 1).out.getD 0) 1024, some (k 2))] else []),
    (if (k (if (k 1).err = SAHNE_SUCCESS then 3 else 2)).err = SAHNE_SUCCESS then
        [(Call.sahne_resource_read ((k (if (k 1).err = SAHNE_SUCCESS then 3 else 2)).out.getD 0)
            fr.buffer 256 fr.bytes_read,
            some (k ((if (k 1).err = SAHNE_SUCCESS then 3 else 2) + 1))),
          (Call.sahne_resource_release
            ((k (if (k 1).err = SAHNE_SUCCESS then 3 else 2)).out.getD 0),
            some (k ((if (k 1).err = SAHNE_SUCCESS then 3 else 2) + 2)))]
      else []),
    fr.res_name, "sahne://test/file", 17, 7, fr.file_handle, rfl, ?_, ?_⟩
  · by_cases h1 : (k 1).err = SAHNE_SUCCESS <;>
      by_cases h2 : (k 2).err = SAHNE_SUCCESS <;>
      by_cases h3 : (k 3).err = SAHNE_SUCCESS <;>
      simp [demoCalls, h1, h2, h3, Call.handleArg, Call.isResourceAcquire,
        Call.isResourceRelease, Call.isMemRelease, Call.isMemAllocate, List.countP_cons,
        Call.scalars, ScalarCall.demoArgs, res_name_byte_size]
  · by_cases h1 : (k 1).err = SAHNE_SUCCESS <;>
      by_cases h2 : (k 2).err = SAHNE_SUCCESS <;>
      by_cases h3 : (k 3).err = SAHNE_SUCCESS <;>
      simp [demoCalls, h1, h2, h3, Call.handleArg, Call.isResourceAcquire,
        Call.isResourceRelease, Call.isMemRelease, Call.isMemAllocate, List.countP_cons,
        Call.scalars, ScalarCall.demoArgs, res_name_byte_size]

theorem demoCalls_scalars (fr fr1 : Frame) (k : Kernel) :
    (demoCalls fr k).map (fun c => (c.1.scalars, c.2)) =
      (demoCalls fr1 k).map (fun c => (c.1.scalars, c.2)) := by
  by_cases h1 : (k 1).err = SAHNE_SUCCESS <;>
      by_cases h2 : (k 2).err = SAHNE_SUCCESS <;>
      by_cases h3 : (k 3).err = SAHNE_SUCCESS <;>
      simp [demoCalls, h1, h2, h3, Call.handleArg, Call.isResourceAcquire,
        Call.isResourceRelease, Call.isMemRelease, Call.isMemAllocate, List.countP_cons,
        Call.scalars, ScalarCall.demoArgs, res_name_byte_size]

theorem demoCalls_demoArgs (fr : Frame) (k : Kernel) :
    ∀ c ∈ demoCalls fr k, c.1.scalars.demoArgs = true := by
  by_cases h1 : (k 1).err = SAHNE_SUCCESS <;>
      by_cases h2 : (k 2).err = SAHNE_SUCCESS <;>
      by_cases h3 : (k 3).err = SAHNE_SUCCESS <;>
      simp [demoCalls, h1, h2, h3, Call.handleArg, Call.isResourceAcquire,
        Call.isResourceRelease, Call.isMemRelease, Call.isMemAllocate, List.countP_cons,
        Call.scalars, ScalarCall.demoArgs, res_name_byte_size]


theorem DemoRun.of_no_fault {fr : Frame} {k : Kernel} {w : Memory} {o : Outcome Int}
    (h : DemoRun fr k w o) (hs : storeFaults k w = false) :
    o.ending = .exited ∧ o.calls = demoCalls fr k ∧ reportsFailures o.exec.trace = true := by
  obtain ⟨h1, h2, h3⟩ := h
  simp only [hs, Bool.false_eq_true, if_false] at h1 h2
  exact ⟨h1, h2, h3⟩

theorem DemoRun.of_fault {fr : Frame} {k : Kernel} {w : Memory} {o : Outcome Int}
    (h : DemoRun fr k w o) (hs : storeFaults k w = true) :
    o.ending = .faulted ∧ o.calls = demoCallsFaulting fr k := by
  obtain ⟨h1, h2, _⟩ := h
  simp only [hs, if_true] at h1 h2
  exact ⟨h1, h2⟩

theorem demoCallsFaulting_no_handle (fr : Frame) (k : Kernel) :
    ∀ c ∈ demoCallsFaulting fr k, c.1.handleArg = none ∧ c.1.isResourceAcquire = false := by
  simp [demoCallsFaulting, Call.handleArg, Call.isResourceAcquire]

theorem demoCallsFaulting_scalars (fr fr1 : Frame) (k : Kernel) :
    (demoCallsFaulting fr k).map (fun c => (c.1.scalars, c.2)) =
      (demoCallsFaulting fr1 k).map (fun c => (c.1.scalars, c.2)) := by
  simp [demoCallsFaulting, Call.scalars]

theorem demoCallsFaulting_demoArgs (fr : Frame) (k : Kernel) :
    ∀ c ∈ demoCallsFaulting fr k, c.1.scalars.demoArgs = true := by
  simp [demoCallsFaulting, Call.scalars, ScalarCall.demoArgs]

theorem demoCalls_getLast (fr : Frame) (k : Kernel) :
    (demoCalls fr k).getLast? = some (Call.sahne_task_exit 0, none) := by
  by_cases h1 : (k 1).err = SAHNE_SUCCESS <;>
    by_cases h2 : (k 2).err = SAHNE_SUCCESS <;>
    by_cases h3 : (k 3).err = SAHNE_SUCCESS <;>
    simp [demoCalls, h1, h2, h3]

/-- C7: the demo program obeys the acquire / release pairing discipline for
every kernel behaviour. In `main` of `main.c` and of `main.cpp`,
`sahne_resource_release` is called exactly once if `sahne_resource_acquire`
returned `SAHNE_SUCCESS` and not at all otherwise; it receives the handle
acquire left in `file_handle`; it is called whatever `sahne_resource_read`
returned; and no operation on a handle occurs before the acquire or after the
release. In the executions that die at the store through the allocated
pointer there is no acquire and no operation on a handle at all. -/
theorem demo_resource_release_pairs_with_acquire (fr : Frame) (k : Kernel) (w : Memory) :
    (storeFaults k w = false →
      ResourcePairing (run (MainC.main fr) k w).calls ∧
      ResourcePairing (run (MainCpp.main fr) k w).calls) ∧
    (storeFaults k w = true →
      ((run (MainC.main fr) k w).ending = .faulted ∧
        ∀ c ∈ (run (MainC.main fr) k w).calls,
          c.1.handleArg = none ∧ c.1.isResourceAcquire = false) ∧
      ((run (MainCpp.main fr) k w).ending = .faulted ∧
        ∀ c ∈ (run (MainCpp.main fr) k w).calls,
          c.1.handleArg = none ∧ c.1.isResourceAcquire = false)) := by
  constructor
  · intro hs
    rw [((MainC.c_main_demoRun fr k w).of_no_fault hs).2.1,
      ((MainCpp.cpp_main_demoRun fr k w).of_no_fault hs).2.1]
    exact ⟨demoCalls_resourcePairing fr k, demoCalls_resourcePairing fr k⟩
  · intro hs
    have hc := (MainC.c_main_demoRun fr k w).of_fault hs
    have hcpp := (MainCpp.cpp_main_demoRun fr k w).of_fault hs
    rw [hc.2, hcpp.2]
    exact ⟨⟨hc.1, demoCallsFaulting_no_handle fr k⟩, ⟨hcpp.1, demoCallsFaulting_no_handle fr k⟩⟩

/-- C9, as the programs have it: the demo layer reports errors and continues
whenever its store through the allocated pointer does not fault. For every
combination of results in which a successful `sahne_mem_allocate` leaves
`NULL` or an address the task may write in `allocated_mem`, `main` issues
`sahne_task_current_id`, then `sahne_mem_allocate`, then
`sahne_resource_acquire`, in that order, whatever the earlier stages
returned; every call that returned an error is directly followed by a print
of the returned code on the error stream; the last interface call is
`sahne_task_exit(0)`; and the execution ends inside that call, so the
trailing `return 0` is never reached. -/
theorem demo_reports_errors_and_continues (fr : Frame) (k : Kernel) (w : Memory)
    (hmem : storeFaults k w = false) :
    (StagesInOrder (run (MainC.main fr) k w).calls ∧
      reportsFailures (run (MainC.main fr) k w).exec.trace = true ∧
      (run (MainC.main fr) k w).calls.getLast? = some (Call.sahne_task_exit 0, none) ∧
      (run (MainC.main fr) k w).ending = .exited) ∧
    (StagesInOrder (run (MainCpp.main fr) k w).calls ∧
      reportsFailures (run (MainCpp.main fr) k w).exec.trace = true ∧
      (run (MainCpp.main fr) k w).calls.getLast? = some (Call.sahne_task_exit 0, none) ∧
      (run (MainCpp.main fr) k w).ending = .exited) := by
  have hc := (MainC.c_main_demoRun fr k w).of_no_fault hmem
  have hcpp := (MainCpp.cpp_main_demoRun fr k w).of_no_fault hmem
  rw [hc.2.1, hcpp.2.1]
  exact ⟨⟨demoCalls_stagesInOrder fr k, hc.2.2, demoCalls_getLast fr k, hc.1⟩,
    ⟨demoCalls_stagesInOrder fr k, hcpp.2.2, demoCalls_getLast fr k, hcpp.1⟩⟩

theorem demo_reports_errors_and_continues_witness :
    storeFaults failingKernel unmappedMemory = false ∧
    StagesInOrder (run (MainC.main exampleFrame) failingKernel unmappedMemory).calls ∧
    reportsFailures (run (MainC.main exampleFrame) failingKernel unmappedMemory).exec.trace =
      true ∧
    (run (MainC.main exampleFrame) failingKernel unmappedMemory).calls.getLast? =
      some (Call.sahne_task_exit 0, none) ∧
    (run (MainC.main exampleFrame) failingKernel unmappedMemory).ending = .exited :=
  ⟨by decide,
    (demo_reports_errors_and_continues exampleFrame failingKernel unmappedMemory
      (by decide)).1⟩

/-- C9, against the claim as stated: with a kernel whose allocation answers
`SAHNE_SUCCESS` and leaves the address 4096 in `allocated_mem`, and a memory
in which the task may not write there, `main` of `main.c` and of `main.cpp`
die at the store `allocated_mem[0] = 42`: the last interface call is
`sahne_mem_allocate`, no `sahne_resource_acquire` and no `sahne_task_exit` is
issued. -/
theorem demo_stops_at_store_when_store_faults :
    ((run (MainC.main exampleFrame) obligingKernel unmappedMemory).ending = .faulted ∧
      (run (MainC.main exampleFrame) obligingKernel unmappedMemory).calls.getLast? =
        some (Call.sahne_mem_allocate 1024 108, some ⟨SAHNE_SUCCESS, some 4096⟩) ∧
      (∀ c ∈ (run (MainC.main exampleFrame) obligingKernel unmappedMemory).calls,
        c.1.isResourceAcquire = false ∧ c.1 ≠ Call.sahne_task_exit 0) ∧
      ¬ StagesInOrder (run (MainC.main exampleFrame) obligingKernel unmappedMemory).calls) ∧
    ((run (MainCpp.main exampleFrame) obligingKernel unmappedMemory).ending = .faulted ∧
      (run (MainCpp.main exampleFrame) obligingKernel unmappedMemory).calls.getLast? =
        some (Call.sahne_mem_allocate 1024 108, some ⟨SAHNE_SUCCESS, some 4096⟩) ∧
      (∀ c ∈ (run (MainCpp.main exampleFrame) obligingKernel unmappedMemory).calls,
        c.1.isResourceAcquire = false ∧ c.1 ≠ Call.sahne_task_exit 0) ∧
      ¬ StagesInOrder (run (MainCpp.main exampleFrame) obligingKernel unmappedMemory).calls) := by
  have hlen : ∀ cs : Calls, cs.length = 2 → ¬ StagesInOrder cs := by
    rintro cs hcs ⟨a0, a1, size, r0, r1, ra, mid, rest, id_ptr, id, id_len, mode, out, heq, _⟩
    have hl := congrArg List.length heq
    simp at hl
    omega
  refine ⟨⟨by decide, by decide, by decide, hlen _ (by decide)⟩,
    ⟨by decide, by decide, by decide, hlen _ (by decide)⟩⟩

/-- C10: the C and C++ demo programs are equivalent at the interface. For
every sequence of kernel results and every memory, and wherever the two
programs keep their locals, `main` of `main.c` and `main` of `main.cpp` end
the same way and issue the same sequence of `sahne_*` calls with the same
scalar arguments and get the same responses; the scalar arguments are size
1024, the 17-byte identifier `"sahne://test/file"` with `id_len` 17, mode 7,
`buffer_len` 256 and exit code 0. -/
theorem demo_c_and_cpp_issue_same_calls (fr fr1 : Frame) (k : Kernel) (w : Memory) :
    (run (MainC.main fr) k w).calls.map (fun c => (c.1.scalars, c.2)) =
      (run (MainCpp.main fr1) k w).calls.map (fun c => (c.1.scalars, c.2)) ∧
    (∀ c ∈ (run (MainC.main fr) k w).calls, c.1.scalars.demoArgs = true) ∧
    (∀ c ∈ (run (MainCpp.main fr1) k w).calls, c.1.scalars.demoArgs = true) ∧
    (run (MainC.main fr) k w).ending = (run (MainCpp.main fr1) k w).ending := by
  by_cases hs : storeFaults k w = true
  · have hc := (MainC.c_main_demoRun fr k w).of_fault hs
    have hcpp := (MainCpp.cpp_main_demoRun fr1 k w).of_fault hs
    rw [hc.2, hcpp.2, hc.1, hcpp.1]
    exact ⟨demoCallsFaulting_scalars fr fr1 k, demoCallsFaulting_demoArgs fr k,
      demoCallsFaulting_demoArgs fr1 k, rfl⟩
  · have hs1 : storeFaults k w = false := by simpa using hs
    have hc := (MainC.c_main_demoRun fr k w).of_no_fault hs1
    have hcpp := (MainCpp.cpp_main_demoRun fr1 k w).of_no_fault hs1
    rw [hc.2.1, hcpp.2.1, hc.1, hcpp.1]
    exact ⟨demoCalls_scalars fr fr1 k, demoCalls_demoArgs fr k, demoCalls_demoArgs fr1 k, rfl⟩

/-! ## Resource modes -/

theorem lor_eq_zero_iff (a b : Nat) : a ||| b = 0 ↔ a = 0 ∧ b = 0 := by
  constructor
  · intro h
    have key : ∀ i, a.testBit i = false ∧ b.testBit i = false := by
      intro i
      have hi := congrArg (fun m => Nat.testBit m i) h
      simpa [Nat.testBit_or] using hi
    constructor
    · apply Nat.eq_of_testBit_eq
      intro i
      simp [(key i).1]
    · apply Nat.eq_of_testBit_eq
      intro i
      simp [(key i).2]
  · rintro ⟨rfl, rfl⟩
    rfl

theorem modeHas_lor (m x f : Nat) :
    modeHas (m ||| x) f = true ↔ modeHas m f = true ∨ modeHas x f = true := by
  simp only [modeHas, bne_iff_ne, ne_eq, Nat.and_distrib_right, lor_eq_zero_iff]
  tauto

theorem modeHas_flag_flag :
    ∀ x ∈ sahne_mode_flags, ∀ f ∈ sahne_mode_flags, (modeHas x f = true ↔ f = x) := by
  decide

theorem modeHas_foldl (S : List Nat) (hS : ∀ x ∈ S, x ∈ sahne_mode_flags) (acc f : Nat)
    (hf : f ∈ sahne_mode_flags) :
    modeHas (S.foldl (fun a x => a ||| x) acc) f = true ↔ modeHas acc f = true ∨ f ∈ S := by
  induction S generalizing acc with
  | nil => simp
  | cons x S ih =>
    have hx : x ∈ sahne_mode_flags := hS x (List.mem_cons_self x S)
    have hS1 : ∀ y ∈ S, y ∈ sahne_mode_flags := fun y hy => hS y (List.mem_cons_of_mem x hy)
    rw [List.foldl_cons, ih hS1 (acc ||| x), modeHas_lor, modeHas_flag_flag x hx f hf,
      List.mem_cons, or_assoc]

theorem modeHas_modeOf (S : List Nat) (hS : ∀ x ∈ S, x ∈ sahne_mode_flags) (f : Nat)
    (hf : f ∈ sahne_mode_flags) : modeHas (modeOf S) f = true ↔ f ∈ S := by
  unfold modeOf
  rw [modeHas_foldl S hS 0 f hf]
  simp [modeHas]

theorem demoCalls_acquire_mode (fr : Frame) (k : Kernel) :
    (∃ c ∈ demoCalls fr k, c.1.isResourceAcquire = true) ∧
    ∀ c ∈ demoCalls fr k, ∀ (id_ptr : Addr) (id : String) (id_len mode : Nat) (out : Addr),
      c.1 = Call.sahne_resource_acquire id_ptr id id_len mode out → mode = 7 := by
  constructor <;>
    by_cases h1 : (k 1).err = SAHNE_SUCCESS <;>
      by_cases h2 : (k 2).err = SAHNE_SUCCESS <;>
      by_cases h3 : (k 3).err = SAHNE_SUCCESS <;>
      simp [demoCalls, h1, h2, h3, Call.isResourceAcquire] <;>
      (intros; subst_vars; rfl)

/-- C4: `ResourceMode` is a faithful bit-set. The five `SAHNE_MODE_*` flags
are the five distinct single-bit values 1, 2, 4, 8, 16; for every collection
`S` of flags the bitwise OR of `S` has flag `f` set if and only if `f` is in
`S`, so two collections with the same OR have the same flags; and `main` of
`main.c` passes `SAHNE_MODE_READ | SAHNE_MODE_WRITE | SAHNE_MODE_CREATE`,
which is 7 with `EXCLUSIVE` and `TRUNCATE` clear, unmodified as the mode
argument of its `sahne_resource_acquire` call, which it issues in every
execution that does not die at the store through the allocated pointer. -/
theorem resource_mode_is_faithful_bit_set (S T : List Nat)
    (hS : ∀ x ∈ S, x ∈ sahne_mode_flags) (hT : ∀ x ∈ T, x ∈ sahne_mode_flags) :
    sahne_mode_flags = [2 ^ 0, 2 ^ 1, 2 ^ 2, 2 ^ 3, 2 ^ 4] ∧
    sahne_mode_flags = [1, 2, 4, 8, 16] ∧
    sahne_mode_flags.Nodup ∧
    (∀ f ∈ sahne_mode_flags, (modeHas (modeOf S) f = true ↔ f ∈ S)) ∧
    (modeOf S = modeOf T → ∀ f, f ∈ S ↔ f ∈ T) ∧
    modeOf [SAHNE_MODE_READ, SAHNE_MODE_WRITE, SAHNE_MODE_CREATE] = 7 ∧
    modeHas 7 SAHNE_MODE_EXCLUSIVE = false ∧
    modeHas 7 SAHNE_MODE_TRUNCATE = false ∧
    (∀ (fr : Frame) (k : Kernel) (w : Memory),
      (storeFaults k w = false →
        ∃ c ∈ (run (MainC.main fr) k w).calls, c.1.isResourceAcquire = true) ∧
      ∀ c ∈ (run (MainC.main fr) k w).calls,
        ∀ (id_ptr : Addr) (id : String) (id_len mode : Nat) (out : Addr),
          c.1 = Call.sahne_resource_acquire id_ptr id id_len mode out →
            mode = modeOf [SAHNE_MODE_READ, SAHNE_MODE_WRITE, SAHNE_MODE_CREATE]) := by
  have h7 : modeOf [SAHNE_MODE_READ, SAHNE_MODE_WRITE, SAHNE_MODE_CREATE] = 7 := by decide
  refine ⟨by decide, by decide, by decide, fun f hf => modeHas_modeOf S hS f hf, ?_, h7,
    by decide, by decide, ?_⟩
  · intro heq f
    constructor
    · intro hfS
      have hf := hS f hfS
      rw [← modeHas_modeOf T hT f hf, ← heq, modeHas_modeOf S hS f hf]
      exact hfS
    · intro hfT
      have hf := hT f hfT
      rw [← modeHas_modeOf S hS f hf, heq, modeHas_modeOf T hT f hf]
      exact hfT
  · intro fr k w
    rw [h7]
    by_cases hs : storeFaults k w = true
    · rw [((MainC.c_main_demoRun fr k w).of_fault hs).2]
      refine ⟨fun hf => absurd hs (by simp [hf]), ?_⟩
      intro c hc id_ptr id id_len mode out hcall
      have hnone := (demoCallsFaulting_no_handle fr k c hc).2
      rw [hcall] at hnone
      exact absurd hnone (by simp [Call.isResourceAcquire])
    · have hs1 : storeFaults k w = false := by simpa using hs
      rw [((MainC.c_main_demoRun fr k w).of_no_fault hs1).2.1]
      exact ⟨fun _ => (demoCalls_acquire_mode fr k).1, (demoCalls_acquire_mode fr k).2⟩

theorem resource_mode_is_faithful_bit_set_witness :
    (∀ x ∈ [SAHNE_MODE_READ, SAHNE_MODE_TRUNCATE], x ∈ sahne_mode_flags) ∧
    (∀ x ∈ [SAHNE_MODE_TRUNCATE, SAHNE_MODE_READ], x ∈ sahne_mode_flags) ∧
    (∀ f ∈ sahne_mode_flags,
      (modeHas (modeOf [SAHNE_MODE_READ, SAHNE_MODE_TRUNCATE]) f = true ↔
        f ∈ [SAHNE_MODE_READ, SAHNE_MODE_TRUNCATE])) :=
  ⟨by decide, by decide,
    (resource_mode_is_faithful_bit_set [SAHNE_MODE_READ, SAHNE_MODE_TRUNCATE]
      [SAHNE_MODE_TRUNCATE, SAHNE_MODE_READ] (by decide) (by decide)).2.2.2.1⟩

/-! ## Handle lifecycle -/

theorem Registry.dead_iff (σ : Registry) (h : sahne_handle_t) :
    σ.Dead h ↔ σ h ≠ .acquired := by
  constructor
  · intro hd hacq
    have h1 := hd.1
    simp only [Registry.step, hacq, if_true] at h1
    have h2 : SAHNE_SUCCESS = SAHNE_ERROR_INVALID_HANDLE := by
      have := Option.some.inj h1
      exact congrArg Prod.snd this
    exact absurd h2 (by decide)
  · intro hne
    exact ⟨by simp [Registry.step, hne], fun op res => by simp [Registry.step, hne]⟩

theorem Registry.step_released {σ σ1 : Registry} {q : Request} {r : sahne_error_t}
    {h : sahne_handle_t} (hstep : σ.step q = some (σ1, r)) (hrel : σ h = .released) :
    σ1 h = .released := by
  cases q with
  | acquire h1 =>
    simp only [Registry.step] at hstep
    split at hstep
    · rename_i hun
      have hσ : σ1 = σ.set h1 .acquired := (congrArg Prod.fst (Option.some.inj hstep)).symm
      have hne : h ≠ h1 := by
        rintro rfl
        rw [hrel] at hun
        exact absurd hun (by decide)
      simp [hσ, Registry.set, hne, hrel]
    · exact absurd hstep (by simp)
  | release h1 =>
    simp only [Registry.step] at hstep
    split at hstep
    · have hσ : σ1 = σ.set h1 .released := (congrArg Prod.fst (Option.some.inj hstep)).symm
      by_cases hh : h = h1
      · simp [hσ, Registry.set, hh]
      · simp [hσ, Registry.set, hh, hrel]
    · have hσ : σ1 = σ := (congrArg Prod.fst (Option.some.inj hstep)).symm
      rw [hσ]
      exact hrel
  | use op h1 res =>
    simp only [Registry.step] at hstep
    split at hstep <;>
    · have hσ : σ1 = σ := (congrArg Prod.fst (Option.some.inj hstep)).symm
      rw [hσ]
      exact hrel

theorem Registry.step_unacquired {σ σ1 : Registry} {q : Request} {r : sahne_error_t}
    {h : sahne_handle_t} (hstep : σ.step q = some (σ1, r)) (hun : σ h = .unacquired)
    (hq : q ≠ .acquire h) : σ1 h = .unacquired := by
  cases q with
  | acquire h1 =>
    simp only [Registry.step] at hstep
    split at hstep
    · have hσ : σ1 = σ.set h1 .acquired := (congrArg Prod.fst (Option.some.inj hstep)).symm
      have hne : h ≠ h1 := by
        rintro rfl
        exact hq rfl
      simp [hσ, Registry.set, hne, hun]
    · exact absurd hstep (by simp)
  | release h1 =>
    simp only [Registry.step] at hstep
    split at hstep
    · rename_i hacq
      have hσ : σ1 = σ.set h1 .released := (congrArg Prod.fst (Option.some.inj hstep)).symm
      have hne : h ≠ h1 := by
        rintro rfl
        rw [hun] at hacq
        exact absurd hacq (by decide)
      simp [hσ, Registry.set, hne, hun]
    · have hσ : σ1 = σ := (congrArg Prod.fst (Option.some.inj hstep)).symm
      rw [hσ]
      exact hun
  | use op h1 res =>
    simp only [Registry.step] at hstep
    split at hstep <;>
    · have hσ : σ1 = σ := (congrArg Prod.fst (Option.some.inj hstep)).symm
      rw [hσ]
      exact hun

theorem Registry.run_cons {σ σ2 : Registry} {q : Request} {qs : List Request}
    {rs : List sahne_error_t} (hrun : σ.run (q :: qs) = some (σ2, rs)) :
    ∃ σ1 r rs1, σ.step q = some (σ1, r) ∧ σ1.run qs = some (σ2, rs1) ∧ rs = r :: rs1 := by
  simp only [Registry.run] at hrun
  cases hstep : σ.step q with
  | none => simp [hstep] at hrun
  | some p =>
    obtain ⟨σ1, r⟩ := p
    simp only [hstep] at hrun
    cases hrest : Registry.run σ1 qs with
    | none => simp [hrest] at hrun
    | some p1 =>
      obtain ⟨σ3, rs1⟩ := p1
      simp only [hrest, Option.some.injEq, Prod.mk.injEq] at hrun
      exact ⟨σ1, r, rs1, rfl, by rw [← hrun.1]; exact hrest, hrun.2.symm⟩

theorem Registry.run_released {qs : List Request} {σ σ2 : Registry}
    {rs : List sahne_error_t} {h : sahne_handle_t} (hrun : σ.run qs = some (σ2, rs))
    (hrel : σ h = .released) : σ2 h = .released := by
  induction qs generalizing σ rs with
  | nil =>
    simp only [Registry.run, Option.some.injEq, Prod.mk.injEq] at hrun
    rw [← hrun.1]
    exact hrel
  | cons q qs ih =>
    obtain ⟨σ1, r, rs1, hstep, hrest, _⟩ := Registry.run_cons hrun
    exact ih hrest (Registry.step_released hstep hrel)

theorem Registry.run_unacquired {qs : List Request} {σ σ2 : Registry}
    {rs : List sahne_error_t} {h : sahne_handle_t} (hrun : σ.run qs = some (σ2, rs))
    (hun : σ h = .unacquired) (hq : Request.acquire h ∉ qs) : σ2 h = .unacquired := by
  induction qs generalizing σ rs with
  | nil =>
    simp only [Registry.run, Option.some.injEq, Prod.mk.injEq] at hrun
    rw [← hrun.1]
    exact hun
  | cons q qs ih =>
    obtain ⟨σ1, r, rs1, hstep, hrest, _⟩ := Registry.run_cons hrun
    have hq1 : q ≠ .acquire h := fun hc => hq (hc ▸ List.mem_cons_self q qs)
    have hq2 : Request.acquire h ∉ qs := fun hc => hq (List.mem_cons_of_mem q hc)
    exact ih hrest (Registry.step_unacquired hstep hun hq1) hq2

/-- C6: the handle state machine. Once an Acquired handle is released, then
after any further requests every operation on it (read, write, control,
lock, release) fails with `SAHNE_ERROR_INVALID_HANDLE`, which is not
`SAHNE_SUCCESS`; the same holds of a handle that was never acquired; and the
operations are permitted in the Acquired state only: a handle rejects them
exactly when it is not Acquired, and an Acquired handle gives the answer of
the resource. -/
theorem handle_operations_need_acquired_state :
    (∀ (σ0 : Registry) (h : sahne_handle_t) (qs : List Request) (σ : Registry)
        (rs : List sahne_error_t), σ0 h = .acquired →
        σ0.run (.release h :: qs) = some (σ, rs) →
        rs.head? = some SAHNE_SUCCESS ∧ σ h = .released ∧ σ.Dead h) ∧
    (∀ (h : sahne_handle_t) (qs : List Request) (σ : Registry) (rs : List sahne_error_t),
        Registry.init.run qs = some (σ, rs) → Request.acquire h ∉ qs →
        σ h = .unacquired ∧ σ.Dead h) ∧
    (∀ (σ : Registry) (h : sahne_handle_t), σ.Dead h ↔ σ h ≠ .acquired) ∧
    (∀ (σ : Registry) (h : sahne_handle_t) (op : HandleUse) (res : sahne_error_t),
        σ h = .acquired → σ.step (.use op h res) = some (σ, res)) ∧
    SAHNE_ERROR_INVALID_HANDLE ≠ SAHNE_SUCCESS := by
  refine ⟨?_, ?_, Registry.dead_iff, ?_, by decide⟩
  · intro σ0 h qs σ rs hacq hrun
    obtain ⟨σ1, r, rs1, hstep, hrest, hrs⟩ := Registry.run_cons hrun
    simp only [Registry.step, hacq, if_true, Option.some.injEq, Prod.mk.injEq] at hstep
    have h1 : σ1 h = .released := by
      rw [← hstep.1]
      simp [Registry.set]
    have h2 : σ h = .released := Registry.run_released hrest h1
    refine ⟨by rw [hrs, ← hstep.2]; rfl, h2, (Registry.dead_iff σ h).2 ?_⟩
    rw [h2]
    decide
  · intro h qs σ rs hrun hq
    have h2 : σ h = .unacquired := Registry.run_unacquired hrun rfl hq
    refine ⟨h2, (Registry.dead_iff σ h).2 ?_⟩
    rw [h2]
    decide
  · intro σ h op res hacq
    simp [Registry.step, hacq]

theorem handle_operations_need_acquired_state_witness :
    ∃ (σ : Registry) (rs : List sahne_error_t),
      (Registry.init.set 1 .acquired).run [.release 1, .acquire 2, .use .read 2 0] =
        some (σ, rs) ∧
      rs.head? = some SAHNE_SUCCESS ∧ σ 1 = .released ∧ σ.Dead 1 :=
  ⟨_, _, rfl,
    handle_operations_need_acquired_state.1 (Registry.init.set 1 .acquired) 1
      [.acquire 2, .use .read 2 0] _ _ rfl rfl⟩

end Sahne
